import Mathlib

/-!
Verification development for the RationSmart MCP gateway
(`src/server.py`, `src/client.py`).

Modelling conventions used throughout this file:

* JSON values (Python objects produced by `json.loads` / consumed by
  `json.dumps`) are modelled by the inductive `JVal`.  Python `None` and JSON
  `null` are both `JVal.null`; Python numbers are modelled as rationals, so the
  int/float distinction of Python is collapsed.  Objects are association lists
  in insertion order; objects obtained from parsed JSON have unique keys
  (Python `json.loads` keeps the last duplicate), and lookups take the first
  binding.
* Python float rounding (`round(x, 1)`, `f"...:.2f"`) is modelled as exact
  round-half-to-even on rationals.
* Python exceptions are modelled as `Except.error` carrying a short tag; the
  exact message text of Python exceptions (KeyError, AttributeError, ...) is
  abstracted.
* The backend HTTP client is an oracle (`Client`): a record of the responses
  the remote service would give.  Every invocation of a client method is
  recorded in a trace (`List Call`) so that properties about the number of
  backend calls can be stated.
-/

set_option maxRecDepth 4000

attribute [local semireducible] Rat.mul Rat.add Rat.sub Rat.inv

/-- JSON / Python value universe. -/
inductive JVal : Type where
  | null : JVal
  | bool : Bool → JVal
  | num : ℚ → JVal
  | str : String → JVal
  | arr : List JVal → JVal
  | obj : List (String × JVal) → JVal

/-- Decimal digits of a natural number, structurally recursive (fuel on the
first argument) so that it evaluates inside the kernel. -/
def natDigitsAux : Nat → Nat → List Char
  | 0, _ => []
  | fuel + 1, n =>
    if n < 10 then [Nat.digitChar n]
    else natDigitsAux fuel (n / 10) ++ [Nat.digitChar (n % 10)]

/-- Decimal rendering of a natural number. -/
def natToStr (n : Nat) : String := String.mk (natDigitsAux (n + 1) n)

/-- Decimal rendering of an integer. -/
def intToStr (i : ℤ) : String :=
  if i < 0 then "-" ++ natToStr i.natAbs else natToStr i.natAbs

/-- Rendering of a rational; integers print as integers. -/
def ratToStr (q : ℚ) : String :=
  if q.den = 1 then intToStr q.num else intToStr q.num ++ "/" ++ natToStr q.den

/-- Minimal JSON string escaping, as performed by `json.dumps` on the strings
occurring in this development. -/
def jsEscapeList : List Char → String
  | [] => ""
  | c :: rest =>
    (if c = '"' then "\\\""
     else if c = '\\' then "\\\\"
     else if c = '\n' then "\\n"
     else String.singleton c) ++ jsEscapeList rest

def jsEscape (s : String) : String := jsEscapeList s.data

mutual

/-- Model of `json.dumps` with its default separators `", "` and `": "`.
Non-integer numbers are rendered as `num/den`, schematically; Python renders a
decimal expansion, but no property below depends on that rendering. -/
def dump : JVal → String
  | .null => "null"
  | .bool true => "true"
  | .bool false => "false"
  | .num q => ratToStr q
  | .str s => "\"" ++ jsEscape s ++ "\""
  | .arr xs => "[" ++ String.intercalate ", " (dumpList xs) ++ "]"
  | .obj fs => "\x7b" ++ String.intercalate ", " (dumpObj fs) ++ "\x7d"

def dumpList : List JVal → List String
  | [] => []
  | v :: t => dump v :: dumpList t

def dumpObj : List (String × JVal) → List String
  | [] => []
  | (k, v) :: t => ("\"" ++ jsEscape k ++ "\": " ++ dump v) :: dumpObj t

end

/-- Python truthiness (`bool(x)`) on JSON values. -/
def truthy : JVal → Bool
  | .null => false
  | .bool b => b
  | .num q => q ≠ 0
  | .str s => s ≠ ""
  | .arr xs => !xs.isEmpty
  | .obj fs => !fs.isEmpty

/-- Python `==` restricted to hashable scalars (the only values used as
dictionary keys in the source; Python `bool` compares equal to the
corresponding int).  Lists and dicts are unhashable in Python, so a container
key would raise there; here the comparison is simply false. -/
def jEq : JVal → JVal → Bool
  | .null, .null => true
  | .bool a, .bool b => a == b
  | .bool a, .num q => (if a then (1 : ℚ) else 0) == q
  | .num q, .bool b => q == (if b then (1 : ℚ) else 0)
  | .num a, .num b => a == b
  | .str a, .str b => a == b
  | _, _ => false

/-- Rendering of a value inside a Python f-string (`str(x)`). -/
def pyStr : JVal → String
  | .null => "None"
  | .bool true => "True"
  | .bool false => "False"
  | .num q => ratToStr q
  | .str s => s
  | .arr xs => dump (.arr xs)
  | .obj fs => dump (.obj fs)

/-- Character-wise lowercasing (Python `str.lower` on the ASCII strings used
here); implemented over the character list so that it evaluates in the
kernel. -/
def strLower (s : String) : String := String.mk (s.data.map Char.toLower)

/-- Python `str.strip()` (whitespace trim at both ends). -/
def strTrim (s : String) : String :=
  String.mk (((s.data.dropWhile Char.isWhitespace).reverse.dropWhile Char.isWhitespace).reverse)

/-- Helper for Python `str.split()` with no argument: split on whitespace
runs, dropping empty pieces.  `acc` holds the current word reversed. -/
def wordsAux : List Char → List Char → List String
  | [], acc => if acc.isEmpty then [] else [String.mk acc.reverse]
  | c :: rest, acc =>
    if c.isWhitespace then
      if acc.isEmpty then wordsAux rest []
      else String.mk acc.reverse :: wordsAux rest []
    else wordsAux rest (c :: acc)

/-- Python `str.split()` (no separator argument). -/
def pySplitWS (s : String) : List String := wordsAux s.data []

/-- Is the first list a prefix of the second (executable)? -/
def listPrefixB : List Char → List Char → Bool
  | [], _ => true
  | _ :: _, [] => false
  | a :: as, b :: bs => a == b && listPrefixB as bs

/-- Is the first list contained contiguously in the second (executable)? -/
def listInfixB (needle : List Char) : List Char → Bool
  | [] => needle.isEmpty
  | b :: bs => listPrefixB needle (b :: bs) || listInfixB needle bs

/-- Python `needle in haystack` on strings. -/
def strIn (needle haystack : String) : Bool :=
  listInfixB needle.toList haystack.toList

/-- Python `s.startswith(p)`. -/
def strStarts (s p : String) : Bool := listPrefixB p.data s.data

/-- Python `round` (half-to-even, "banker\x27s rounding") to an integer. -/
def roundHalfEven (x : ℚ) : ℤ :=
  let f : ℤ := x.floor
  let r : ℚ := x - f
  if r < 1/2 then f
  else if 1/2 < r then f + 1
  else if f % 2 = 0 then f else f + 1

/-- Python `round(x, 1)`. -/
def round1 (x : ℚ) : ℚ := (roundHalfEven (x * 10) : ℚ) / 10

/-- Python fixed-point formatting `f"{x:.df}"` (round-half-to-even, `d`
fractional digits). -/
def fmtFixed (d : Nat) (x : ℚ) : String :=
  let n := roundHalfEven (x * (10 : ℚ) ^ d)
  let sign := if n < 0 then "-" else ""
  let a := n.natAbs
  if d = 0 then sign ++ natToStr a
  else
    let fs := natToStr (a % 10 ^ d)
    sign ++ natToStr (a / 10 ^ d) ++ "." ++
      String.mk (List.replicate (d - fs.length) '0') ++ fs

/-- `.title()` as applied to the single lowercase words "morning"/"evening". -/
def pyTitle (s : String) : String :=
  match s.toList with
  | [] => ""
  | c :: rest => String.mk (c.toUpper :: rest)

example : fmtFixed 1 5 = "5.0" := by decide
example : fmtFixed 0 50 = "50" := by decide
example : fmtFixed 2 (7/2) = "3.50" := by decide
example : round1 (1/40) = 0 := by decide
example : round1 5 = 5 := by decide
example : pyTitle "morning" = "Morning" := by decide
example : strIn "text/event-stream" "application/json, text/event-stream" = true := by decide
example : dump (.obj [("a", .num 1), ("b", .str "x")]) = "\x7b\"a\": 1, \"b\": \"x\"\x7d" := by decide

/-!
## Country resolution (`server.py`, `_resolve_country_id` and helpers)

Country records returned by the backend (`GET /auth/countries`) are modelled
as records with optional string fields; a `none` field models a missing (or
`null`) key.  Records are non-empty JSON objects, so Python truthiness of a
record itself is `True`.
-/

structure Country where
  name : Option String
  country_code : Option String
  id : Option String
  currency : Option String
  is_active : Bool
deriving DecidableEq

/-- `COUNTRY_CODE_OVERRIDES` from `server.py`. -/
def COUNTRY_CODE_OVERRIDES : List (String × String) :=
  [("vn", "vnm"), ("in", "ind"), ("et", "eth"), ("id", "idn"), ("ph", "phl"),
   ("pk", "pak"), ("bd", "bgd"), ("np", "npl"), ("ke", "ken"), ("tz", "tza"),
   ("ug", "uga")]

/-- Core of `_normalize_name` on an actual string:
`" ".join(value.strip().lower().split())`. -/
def normNameStr (s : String) : String :=
  String.intercalate " " (pySplitWS (strLower (strTrim s)))

/-- `_normalize_name` from `server.py` on `None`-or-string input.
`if not value: return ""`; the empty string also normalizes to itself, so the
two branches agree on `""`. -/
def normalize_name : Option String → String
  | none => ""
  | some s => normNameStr s

/-- `_normalize_code` from `server.py` on `None`-or-string input:
`value.strip().lower()`. -/
def normalize_code : Option String → String
  | none => ""
  | some s => strLower (strTrim s)

/-!
## Backend client oracle and call traces

`Client` models `RationSmartClient` (`client.py`) as an oracle: each method is
the response (or raised error) the backend would give.  `Call` tags each
client-method invocation; the arguments of calls are elided because the
properties below only count calls.
-/

inductive Call : Type where
  | get_countries | get_breeds | resolve_location | create_cow | list_cows
  | get_cow | update_cow | delete_cow | generate_diet_for_cow | save_diet
  | get_diet_history | get_active_diet | follow_diet | unfollow_diet
deriving DecidableEq

structure Client where
  get_countries : Except String (List Country)
  get_breeds : JVal → Except String JVal
  resolve_location : JVal → JVal → Except String JVal
  create_cow : JVal → JVal → JVal → JVal → JVal → JVal → JVal → JVal → JVal → JVal →
    Except String JVal
  list_cows : JVal → Except String JVal
  get_cow : JVal → JVal → Except String JVal
  update_cow : JVal → JVal → List (String × JVal) → Except String JVal
  delete_cow : JVal → JVal → JVal → Except String JVal
  generate_diet_for_cow : JVal → JVal → JVal → Except String JVal
  save_diet : JVal → JVal → JVal → JVal → String → JVal → JVal → Except String JVal
  get_diet_history : JVal → JVal → Except String JVal
  get_active_diet : JVal → JVal → Except String JVal
  follow_diet : JVal → JVal → Except String JVal
  unfollow_diet : JVal → JVal → Except String JVal

/-- Handler monad: an `Except`-with-trace state function.  The trace records
every backend call made, in order, including calls made before an
exception. -/
def ToolM (α : Type) : Type := List Call → Except String α × List Call

instance : Monad ToolM where
  pure a := fun tr => (.ok a, tr)
  bind x f := fun tr =>
    match x tr with
    | (.ok a, tr2) => f a tr2
    | (.error e, tr2) => (.error e, tr2)

/-- Lift a pure `Except` computation (no backend call). -/
def liftE {α : Type} (r : Except String α) : ToolM α := fun tr => (r, tr)

/-- Perform one backend call with the given oracle response. -/
def callB {α : Type} (c : Call) (r : Except String α) : ToolM α :=
  fun tr => (r, tr ++ [c])

/-- Raise an exception. -/
def throwT {α : Type} (e : String) : ToolM α := fun tr => (.error e, tr)

/-- Python `try ... except Exception as e` around a handler fragment. -/
def tryCatchT {α : Type} (x : ToolM α) (h : String → ToolM α) : ToolM α :=
  fun tr =>
    match x tr with
    | (.error e, tr2) => h e tr2
    | ok => ok

/-- `_normalize_name` applied to an argument of unknown JSON type, as the
handlers do.  Falsy values give `""` (Python `if not value`); a truthy
non-string raises (`.strip()` on a non-string). -/
def normalize_name_v (value : JVal) : Except String String :=
  if !truthy value then .ok ""
  else match value with
    | .str s => .ok (normNameStr s)
    | _ => .error "AttributeError"

/-- `_normalize_code` applied to an argument of unknown JSON type. -/
def normalize_code_v (value : JVal) : Except String String :=
  if !truthy value then .ok ""
  else match value with
    | .str s => .ok (strLower (strTrim s))
    | _ => .error "AttributeError"

/-- The pure matching cascade of `_resolve_country_id` (`server.py` lines
446-468): four `next(...)` scans guarded by `if not match and ...`. -/
def resolveMatch (countries : List Country) (normalized_name mapped_code : String) :
    Option Country :=
  let m1 := if normalized_name ≠ "" then
      countries.find? (fun c => normalize_name c.name == normalized_name) else none
  let m2 := if m1 = none ∧ mapped_code ≠ "" then
      countries.find? (fun c => normalize_code c.country_code == mapped_code) else m1
  let m3 := if m2 = none ∧ normalized_name ≠ "" then
      countries.find? (fun c =>
        strIn normalized_name (normalize_name c.name)
          || strIn (normalize_name c.name) normalized_name) else m2
  if m3 = none then countries.find? (fun c => c.is_active) else m3

/-- `_resolve_country_id` from `server.py`: fetch the country list, normalize
the candidate name and code, remap the code through the override table, run
the matching cascade, and return `match.get("id") if match else None`. -/
def resolve_country_id (client : Client) (country_code country_name : JVal) :
    ToolM (Option String) := do
  let countries ← callB .get_countries client.get_countries
  let normalized_name ← liftE (normalize_name_v country_name)
  let code ← liftE (normalize_code_v country_code)
  let mapped_code := (List.lookup code COUNTRY_CODE_OVERRIDES).getD code
  pure ((resolveMatch countries normalized_name mapped_code).bind Country.id)

/-- "This step, else that step": the first of two optional matches. -/
def firstSome {α : Type} (a b : Option α) : Option α :=
  match a with
  | some x => some x
  | none => b

/-- Modelled from the spec: the country-resolution contract as the spec and
claim C1 word it.  Normalize the name (trim, collapse internal whitespace,
lowercase) and the code (trim, lowercase); remap the code through the
override table; then take, in strict precedence, the first exact
normalized-name match, else the first exact overridden-code match, else the
first record with substring containment between candidate and record name in
either direction, else the first active record — a later step never fires
while an earlier one has a match; return that record id. -/
def specResolveCountryId (countries : List Country)
    (country_code country_name : Option String) : Option String :=
  let nn := normalize_name country_name
  let code := normalize_code country_code
  let mc := (List.lookup code COUNTRY_CODE_OVERRIDES).getD code
  let exact_name := if nn ≠ "" then
      countries.find? (fun c => normalize_name c.name == nn) else none
  let exact_code := if mc ≠ "" then
      countries.find? (fun c => normalize_code c.country_code == mc) else none
  let fuzzy := if nn ≠ "" then
      countries.find? (fun c =>
        strIn nn (normalize_name c.name) || strIn (normalize_name c.name) nn) else none
  let active := countries.find? (fun c => c.is_active)
  (firstSome exact_name (firstSome exact_code (firstSome fuzzy active))).bind Country.id

/-- Embed an optional string argument as the JSON value a handler passes. -/
def jOfOptStr : Option String → JVal
  | none => .null
  | some s => .str s

example : normNameStr "  InDia   Republic " = "india republic" := by decide
example : normalize_code (some " IN ") = "in" := by decide
example : (List.lookup "in" COUNTRY_CODE_OVERRIDES).getD "in" = "ind" := by decide
example : (List.lookup "us" COUNTRY_CODE_OVERRIDES).getD "us" = "us" := by decide

/-!
## Python dictionary access helpers

`pyGet d k` is `d.get(k)` (absent key gives `None`); `pyGetD d k v` is
`d.get(k, v)`; `pyIndex d k` is `d[k]`.  Calling a dict method on a non-dict
raises, modelled as an error tag.
-/

def pyGet (d : JVal) (k : String) : Except String JVal :=
  match d with
  | .obj fs => .ok ((List.lookup k fs).getD .null)
  | _ => .error "AttributeError"

def pyGetD (d : JVal) (k : String) (dflt : JVal) : Except String JVal :=
  match d with
  | .obj fs => .ok ((List.lookup k fs).getD dflt)
  | _ => .error "AttributeError"

def pyIndex (d : JVal) (k : String) : Except String JVal :=
  match d with
  | .obj fs =>
    match List.lookup k fs with
    | some v => .ok v
    | none => .error ("KeyError: " ++ k)
  | _ => .error "TypeError"

/-- Python `for x in v` where the handlers always receive a JSON array; other
iterables are abstracted as a type error. -/
def jIter (v : JVal) : Except String (List JVal) :=
  match v with
  | .arr xs => .ok xs
  | _ => .error "TypeError"

/-- Coerce a JSON value to a number as Python arithmetic does (`bool` is an
`int` in Python); everything else raises a type error. -/
def jNumE (v : JVal) : Except String ℚ :=
  match v with
  | .num q => .ok q
  | .bool b => .ok (if b then 1 else 0)
  | _ => .error "TypeError"

/-- Python `a or b` on JSON values (value-returning, truthiness based). -/
def pyOr (a b : JVal) : JVal := if truthy a then a else b

/-- Membership-respecting lookup in a dict keyed by arbitrary scalar JSON
values (`feed_names_lookup`); first binding wins. -/
def lookupJ (k : JVal) (l : List (JVal × JVal)) : Option JVal :=
  (l.find? (fun kv => jEq kv.1 k)).map (fun kv => kv.2)

/-!
## Diet summary derivation (`client.py`, `_extract_diet_summary`)
-/

/-- Tail of the per-item transform of `_extract_diet_summary`, after the name
enrichment: read the quantity (default 0) and build the entry dictionary.
The source first builds `feed_item` with `quantity_kg = round(qty, 1)` and
then overrides that field with `round(qty / 2, 1)` in both buckets; the
composed field value is used directly here. -/
def extract_item_rest (feed english_name local_name fd_type : JVal) : Except String JVal :=
  match pyGetD feed "quantity_kg_per_day" (.num 0) with
  | .error e => .error e
  | .ok qv =>
    match jNumE qv with
    | .error e => .error e
    | .ok q =>
      .ok (.obj [("name", english_name), ("english_name", english_name),
        ("local_name", local_name),
        ("quantity_kg", .num (round1 (q / 2))),
        ("fd_type", fd_type)])

/-- The per-line-item transform inside the loop of `_extract_diet_summary`:
feed id, embedded name with default, catalog enrichment when the feed id is
truthy and found, then the quantity tail. -/
def extract_item (feed_names_lookup : List (JVal × JVal)) (feed : JVal) :
    Except String JVal :=
  match pyGet feed "feed_id" with
  | .error e => .error e
  | .ok feed_id =>
    match pyGetD feed "feed_name" (.str "Unknown") with
    | .error e => .error e
    | .ok english_name0 =>
      match (if truthy feed_id then lookupJ feed_id feed_names_lookup else none) with
      | some lk =>
        match pyGet lk "english_name" with
        | .error e => .error e
        | .ok en =>
          match pyGet lk "local_name" with
          | .error e => .error e
          | .ok ln =>
            match pyGet lk "fd_type" with
            | .error e => .error e
            | .ok ft => extract_item_rest feed (pyOr en english_name0) ln ft
      | none => extract_item_rest feed english_name0 .null .null

/-- The loop of `_extract_diet_summary`: one entry appended to each of the
morning and evening lists per line item, in order. -/
def extract_items (feed_names_lookup : List (JVal × JVal)) :
    List JVal → Except String (List JVal × List JVal)
  | [] => .ok ([], [])
  | f :: rest =>
    match extract_item feed_names_lookup f with
    | .error e => .error e
    | .ok item =>
      match extract_items feed_names_lookup rest with
      | .error e => .error e
      | .ok (ms, es) => .ok (item :: ms, item :: es)

/-- `_extract_diet_summary` from `client.py`. -/
def extract_diet_summary (result : JVal) (feed_names_lookup : List (JVal × JVal)) :
    Except String JVal :=
  match pyGetD result "least_cost_diet" (.arr []) with
  | .error e => .error e
  | .ok diet_details =>
    match jIter diet_details with
    | .error e => .error e
    | .ok items =>
      match extract_items feed_names_lookup items with
      | .error e => .error e
      | .ok (morning_feeds, evening_feeds) =>
        .ok (.obj [("morning", .arr morning_feeds), ("evening", .arr evening_feeds)])

/-!
## Diet schedule formatting (`server.py`, `_format_diet_schedule`)
-/

/-- `_format_diet_schedule` from `server.py`. -/
def format_diet_schedule (diet_summary : JVal) : Except String String := do
  let mut lines : List String := []
  for period in ["morning", "evening"] do
    let feeds ← pyGetD diet_summary period (.arr [])
    if truthy feeds then
      lines := lines ++ [pyTitle period ++ " Feeding:"]
      for feed in (← jIter feeds) do
        let en ← pyGet feed "english_name"
        let nm ← if truthy en then pure en else pyGetD feed "name" (.str "Unknown")
        let qv ← pyGetD feed "quantity_kg" (.num 0)
        let qty ← jNumE qv
        if 1 ≤ qty then
          lines := lines ++ ["  - " ++ pyStr nm ++ ": " ++ fmtFixed 1 qty ++ " kg"]
        else if 0 < qty then
          lines := lines ++ ["  - " ++ pyStr nm ++ ": " ++ fmtFixed 0 (qty * 1000) ++ " grams"]
      lines := lines ++ [""]
  let joined := strTrim (String.intercalate "\n" lines)
  pure (if joined = "" then "No schedule available" else joined)

/-!
## Structured embeddings of line items and catalog entries (for the
diet-summary properties)

A `LineItem` is a well-formed backend line item: an optional embedded feed
name (`none` models an absent `feed_name` key) and a numeric
`quantity_kg_per_day`.  A `CatEntry` is a catalog value as built by
`generate_diet_for_cow`, with an optional string display name.
-/

structure LineItem where
  feed_id : JVal
  feed_name : Option String
  qty : ℚ

def LineItem.toJ (it : LineItem) : JVal :=
  .obj ([("feed_id", it.feed_id)] ++
    (match it.feed_name with
     | some n => [("feed_name", JVal.str n)]
     | none => []) ++
    [("quantity_kg_per_day", .num it.qty)])

structure CatEntry where
  english_name : Option String
  local_name : JVal
  fd_type : JVal

def CatEntry.toJ (e : CatEntry) : JVal :=
  .obj ((match e.english_name with
         | some n => [("english_name", JVal.str n)]
         | none => []) ++
    [("local_name", e.local_name), ("fd_type", e.fd_type)])

/-- Embed a string-keyed catalog as the dict passed to
`_extract_diet_summary`. -/
def catToJ (catalog : List (String × CatEntry)) : List (JVal × JVal) :=
  catalog.map (fun kv => (JVal.str kv.1, kv.2.toJ))

/-- Catalog lookup as the code performs it on a string-keyed catalog: a falsy
(empty or non-string) feed id never matches. -/
def catLookup (catalog : List (String × CatEntry)) (fid : JVal) : Option CatEntry :=
  match fid with
  | .str s => (catalog.find? (fun kv => kv.1 == s)).map (fun kv => kv.2)
  | _ => none

/-- The name-selection contract (amended claim C2): the catalog display name
when the feed id is truthy, present in the catalog and the catalog name is a
non-empty string; else the embedded line-item name; else `"Unknown"`. -/
def specName (catalog : List (String × CatEntry)) (it : LineItem) : String :=
  match (if truthy it.feed_id then catLookup catalog it.feed_id else none) with
  | some e =>
    match e.english_name with
    | some n => if n ≠ "" then n else it.feed_name.getD "Unknown"
    | none => it.feed_name.getD "Unknown"
  | none => it.feed_name.getD "Unknown"

/-- The per-entry contract of the diet summary (amended claim C2): name per
`specName`, catalog enrichment for local name and type, and the line-item
quantity halved and rounded to one decimal place. -/
def specEntry (catalog : List (String × CatEntry)) (it : LineItem) : JVal :=
  let looked := if truthy it.feed_id then catLookup catalog it.feed_id else none
  .obj [("name", .str (specName catalog it)),
        ("english_name", .str (specName catalog it)),
        ("local_name", (looked.map CatEntry.local_name).getD .null),
        ("quantity_kg", .num (round1 (it.qty / 2))),
        ("fd_type", (looked.map CatEntry.fd_type).getD .null)]

/-!
## Tool handlers (`server.py`, body of `call_tool`)

Each `elif` branch of `call_tool` is translated as a named handler returning
the text of the single `TextContent` that the branch produces (every branch
of the source returns exactly one `TextContent`).
-/

/-- Is the value Python `None`? -/
def isNull : JVal → Bool
  | .null => true
  | _ => false

/-- `record['k']` on a typed country record. -/
def reqField (o : Option String) (k : String) : ToolM String :=
  match o with
  | some s => pure s
  | none => throwT ("KeyError: " ++ k)

def handle_countries_list (client : Client) : ToolM String := do
  let countries ← callB .get_countries client.get_countries
  let mut lines : List String := ["Available countries:\n"]
  for c in countries do
    let nm ← reqField c.name "name"
    let cid ← reqField c.id "id"
    lines := lines ++
      ["- " ++ nm ++ " (ID: " ++ cid ++ ", Currency: " ++ c.currency.getD "N/A" ++ ")"]
  pure (String.intercalate "\n" lines)

def handle_breeds_list (arguments : JVal) (client : Client) : ToolM String := do
  let country_id ← liftE (pyGet arguments "country_id")
  if !truthy country_id then
    pure "Error: country_id is required"
  else do
    let result ← callB .get_breeds (client.get_breeds country_id)
    let breeds ← liftE (pyGetD result "breeds" (.arr []))
    if !truthy breeds then
      pure "No breeds found."
    else do
      let mut lines : List String := ["Available breeds:\n"]
      for b in (← liftE (jIter breeds)) do
        lines := lines ++ ["- " ++ pyStr (← liftE (pyIndex b "name"))]
      pure (String.intercalate "\n" lines)

def handle_location_resolve (arguments : JVal) (client : Client) : ToolM String := do
  let latitude ← liftE (pyGet arguments "latitude")
  let longitude ← liftE (pyGet arguments "longitude")
  if isNull latitude || isNull longitude then
    pure "Error: latitude and longitude are required"
  else do
    let resolved ← callB .resolve_location (client.resolve_location latitude longitude)
    pure (dump resolved)

/-- Tail of the `rationsmart.countries.resolve` handler, from the
`_resolve_country_id` call onward. -/
def handle_countries_resolve_rest (client : Client) (country_code country_name : JVal) :
    ToolM String := do
  let country_id ← resolve_country_id client country_code country_name
  match country_id with
  | none => pure "Error: unable to resolve country_id"
  | some cid =>
    if cid = "" then pure "Error: unable to resolve country_id"
    else
      pure (dump (.obj [("country_id", .str cid), ("country_code", country_code),
        ("country_name", country_name)]))

def handle_countries_resolve (arguments : JVal) (client : Client) : ToolM String := do
  let country_code ← liftE (pyGet arguments "country_code")
  let country_name ← liftE (pyGet arguments "country_name")
  let latitude ← liftE (pyGet arguments "latitude")
  let longitude ← liftE (pyGet arguments "longitude")
  if !truthy country_code && !truthy country_name then
    if !isNull latitude && !isNull longitude then do
      let resolved ← callB .resolve_location (client.resolve_location latitude longitude)
      let cc ← liftE (pyGet resolved "country_code")
      let cn ← liftE (pyGet resolved "country_name")
      handle_countries_resolve_rest client cc cn
    else
      pure "Error: provide country_code/country_name or latitude/longitude"
  else
    handle_countries_resolve_rest client country_code country_name

def handle_cows_create (arguments : JVal) (client : Client) : ToolM String := do
  let device_id ← liftE (pyGet arguments "device_id")
  let cow_name ← liftE (pyGet arguments "name")
  if !truthy device_id || !truthy cow_name then
    pure "Error: device_id and name are required"
  else do
    let breed ← liftE (pyGet arguments "breed")
    let body_weight ← liftE (pyGetD arguments "body_weight" (.num 400))
    let lactating ← liftE (pyGetD arguments "lactating" (.bool true))
    let milk_production ← liftE (pyGetD arguments "milk_production" (.num 10))
    let target_milk_yield ← liftE (pyGet arguments "target_milk_yield")
    let days_in_milk ← liftE (pyGetD arguments "days_in_milk" (.num 100))
    let parity ← liftE (pyGetD arguments "parity" (.num 2))
    let days_of_pregnancy ← liftE (pyGetD arguments "days_of_pregnancy" (.num 0))
    let result ← callB .create_cow
      (client.create_cow device_id cow_name breed body_weight lactating milk_production
        target_milk_yield days_in_milk parity days_of_pregnancy)
    let rname ← liftE (pyIndex result "name")
    let rid ← liftE (pyIndex result "id")
    let rbreed ← liftE (pyGetD result "breed" (.str "Not specified"))
    let rbw ← liftE (pyIndex result "body_weight")
    let rmilk ← liftE (pyIndex result "milk_production")
    pure ("Created cow profile:\n- Name: " ++ pyStr rname ++ "\n- ID: " ++ pyStr rid ++
      "\n- Breed: " ++ pyStr rbreed ++ "\n- Weight: " ++ pyStr rbw ++
      " kg\n- Milk: " ++ pyStr rmilk ++ " L/day")

def handle_cows_list (arguments : JVal) (client : Client) : ToolM String := do
  let device_id ← liftE (pyGet arguments "device_id")
  if !truthy device_id then
    pure "Error: device_id is required"
  else do
    let result ← callB .list_cows (client.list_cows device_id)
    let cows ← liftE (pyGetD result "cow_profiles" (.arr []))
    if !truthy cows then
      pure "No cows found."
    else do
      let cl ← liftE (jIter cows)
      let mut lines : List String := ["Found " ++ natToStr cl.length ++ " cow(s):\n"]
      for cow in cl do
        let lact ← liftE (pyGet cow "lactating")
        let status := if truthy lact then "Lactating" else "Dry"
        let milk ←
          if truthy lact then do
            let mp ← liftE (pyGetD cow "milk_production" (.num 0))
            pure (pyStr mp ++ " L/day")
          else pure "N/A"
        let nm ← liftE (pyIndex cow "name")
        let cid ← liftE (pyIndex cow "id")
        let breed ← liftE (pyGetD cow "breed" (.str "Unknown"))
        lines := lines ++ ["- " ++ pyStr nm ++ " (ID: " ++ pyStr cid ++ ")\n  Breed: " ++
          pyStr breed ++ " | " ++ status ++ " | Milk: " ++ milk]
      pure (String.intercalate "\n" lines)

def handle_cows_get (arguments : JVal) (client : Client) : ToolM String := do
  let device_id ← liftE (pyGet arguments "device_id")
  let cow_id ← liftE (pyGet arguments "cow_id")
  if !truthy device_id || !truthy cow_id then
    pure "Error: device_id and cow_id are required"
  else do
    let cow ← callB .get_cow (client.get_cow cow_id device_id)
    let tmy ← liftE (pyGet cow "target_milk_yield")
    let target := if truthy tmy then pyStr tmy ++ " L/day" else "Not set"
    let nm ← liftE (pyIndex cow "name")
    let cid ← liftE (pyIndex cow "id")
    let breed ← liftE (pyGetD cow "breed" (.str "Not specified"))
    let bw ← liftE (pyIndex cow "body_weight")
    let lact ← liftE (pyIndex cow "lactating")
    let milk ← liftE (pyIndex cow "milk_production")
    let dim ← liftE (pyGetD cow "days_in_milk" (.num 0))
    let par ← liftE (pyGetD cow "parity" (.num 0))
    let dop ← liftE (pyGetD cow "days_of_pregnancy" (.num 0))
    pure ("Cow: " ++ pyStr nm ++ "\nID: " ++ pyStr cid ++ "\nBreed: " ++ pyStr breed ++
      "\nWeight: " ++ pyStr bw ++ " kg\nLactating: " ++
      (if truthy lact then "Yes" else "No") ++ "\nMilk: " ++ pyStr milk ++
      " L/day\nTarget: " ++ target ++ "\nDays in Milk: " ++ pyStr dim ++
      "\nParity: " ++ pyStr par ++ "\nPregnancy: " ++ pyStr dop ++ " days")

def handle_cows_update (arguments : JVal) (client : Client) : ToolM String := do
  let device_id ← liftE (pyGet arguments "device_id")
  let cow_id ← liftE (pyGet arguments "cow_id")
  if !truthy device_id || !truthy cow_id then
    pure "Error: device_id and cow_id are required"
  else
    match arguments with
    | .obj fs =>
      let updates := fs.filter
        (fun kv => !(kv.1 == "device_id" || kv.1 == "cow_id") && !(isNull kv.2))
      if updates.isEmpty then pure "No updates provided."
      else do
        let result ← callB .update_cow (client.update_cow cow_id device_id updates)
        pure ("Updated " ++ pyStr (← liftE (pyIndex result "name")) ++ " successfully.")
    | _ => throwT "AttributeError"

def handle_cows_delete (arguments : JVal) (client : Client) : ToolM String := do
  let device_id ← liftE (pyGet arguments "device_id")
  let cow_id ← liftE (pyGet arguments "cow_id")
  if !truthy device_id || !truthy cow_id then
    pure "Error: device_id and cow_id are required"
  else do
    let permanent ← liftE (pyGetD arguments "permanent" (.bool false))
    let result ← callB .delete_cow (client.delete_cow cow_id device_id permanent)
    pure (pyStr (← liftE (pyGetD result "message" (.str "Cow deleted."))))

def handle_diets_generate (arguments : JVal) (client : Client) : ToolM String := do
  let device_id ← liftE (pyGet arguments "device_id")
  let cow_id ← liftE (pyGet arguments "cow_id")
  let country_id0 ← liftE (pyGet arguments "country_id")
  if !truthy device_id || !truthy cow_id then
    pure "Error: device_id and cow_id are required"
  else do
    let country_id ←
      if truthy country_id0 then pure country_id0
      else do
        let country_code0 ← liftE (pyGet arguments "country_code")
        let country_name0 ← liftE (pyGet arguments "country_name")
        let latitude ← liftE (pyGet arguments "latitude")
        let longitude ← liftE (pyGet arguments "longitude")
        let cc_cn ←
          if !truthy country_code0 && !truthy country_name0 then
            if !isNull latitude && !isNull longitude then do
              let resolved ← callB .resolve_location (client.resolve_location latitude longitude)
              let cc ← liftE (pyGet resolved "country_code")
              let cn ← liftE (pyGet resolved "country_name")
              pure (cc, cn)
            else pure (country_code0, country_name0)
          else pure (country_code0, country_name0)
        if truthy cc_cn.1 || truthy cc_cn.2 then do
          let r ← resolve_country_id client cc_cn.1 cc_cn.2
          pure (jOfOptStr r)
        else pure country_id0
    if !truthy country_id then
      pure "Error: country_id or country_code/latitude+longitude is required"
    else do
      let cow ← callB .get_cow (client.get_cow cow_id device_id)
      let cow_name ← liftE (pyGetD cow "name" (.str "the cow"))
      let result ← callB .generate_diet_for_cow
        (client.generate_diet_for_cow cow_id device_id country_id)
      let save_diet ← liftE (pyGetD arguments "save_diet" (.bool true))
      let diet_id ←
        if truthy save_diet then do
          let diet_summary ← liftE (pyGetD result "diet_summary" (.obj []))
          let tc1 ← liftE (pyGet result "total_cost_per_day")
          let tc2 ← liftE (pyGet result "total_diet_cost")
          let currency ← liftE (pyGet result "currency")
          let saved ← callB .save_diet
            (client.save_diet device_id cow_id diet_summary result
              ("Diet for " ++ pyStr cow_name) (pyOr tc1 tc2) currency)
          liftE (pyGet saved "id")
        else pure JVal.null
      let mut lines : List String := ["Diet for " ++ pyStr cow_name ++ ":\n"]
      let diet_summary ← liftE (pyGetD result "diet_summary" (.obj []))
      if truthy diet_summary then
        lines := lines ++ [← liftE (format_diet_schedule diet_summary)]
      else
        let least_cost ← liftE (pyGetD result "least_cost_diet" (.arr []))
        if truthy least_cost then
          lines := lines ++ ["Feeds:"]
          for feed in (← liftE (jIter least_cost)) do
            let fn ← liftE (pyGet feed "feed_name")
            let qv ← liftE (pyGetD feed "quantity_kg_per_day" (.num 0))
            let q ← liftE (jNumE qv)
            lines := lines ++ ["  - " ++ pyStr fn ++ ": " ++ fmtFixed 2 q ++ " kg/day"]
      let tc1 ← liftE (pyGet result "total_cost_per_day")
      let tc2 ← liftE (pyGet result "total_diet_cost")
      let cost := pyOr tc1 tc2
      if truthy cost then
        let currency ← liftE (pyGetD result "currency" (.str "INR"))
        let cq ← liftE (jNumE cost)
        lines := lines ++ ["\nDaily Cost: " ++ pyStr currency ++ " " ++ fmtFixed 2 cq]
      if truthy diet_id then
        lines := lines ++ ["\nDiet saved (ID: " ++ pyStr diet_id ++ ")",
          "Use \x27rationsmart.diets.follow\x27 to start following this diet."]
      pure (String.intercalate "\n" lines)

def handle_diets_schedule_get (arguments : JVal) (client : Client) : ToolM String := do
  let device_id ← liftE (pyGet arguments "device_id")
  let cow_id ← liftE (pyGet arguments "cow_id")
  if !truthy device_id || !truthy cow_id then
    pure "Error: device_id and cow_id are required"
  else
    tryCatchT
      (do
        let diet ← callB .get_active_diet (client.get_active_diet cow_id device_id)
        let cow ← callB .get_cow (client.get_cow cow_id device_id)
        let ds ← liftE (pyGetD diet "diet_summary" (.obj []))
        let schedule ← liftE (format_diet_schedule ds)
        let cost ← liftE (pyGet diet "total_cost_per_day")
        let cost_line ←
          if truthy cost then do
            let currency ← liftE (pyGetD diet "currency" (.str "INR"))
            let cq ← liftE (jNumE cost)
            pure ("\nDaily Cost: " ++ pyStr currency ++ " " ++ fmtFixed 2 cq)
          else pure ""
        let nm ← liftE (pyGetD cow "name" (.str "cow"))
        pure ("Schedule for " ++ pyStr nm ++ ":\n\n" ++ schedule ++ cost_line))
      (fun e =>
        if strIn "404" e || strIn "not found" (strLower e) then
          pure "No active diet. Generate a diet and use \x27rationsmart.diets.follow\x27 to start following it."
        else throwT e)

def handle_diets_history_list (arguments : JVal) (client : Client) : ToolM String := do
  let device_id ← liftE (pyGet arguments "device_id")
  if !truthy device_id then
    pure "Error: device_id is required"
  else do
    let cow_id ← liftE (pyGet arguments "cow_id")
    let result ← callB .get_diet_history (client.get_diet_history device_id cow_id)
    let diets ← liftE (pyGetD result "diets" (.arr []))
    if !truthy diets then
      pure "No diet history."
    else do
      let dl ← liftE (jIter diets)
      let mut lines : List String := ["Found " ++ natToStr dl.length ++ " diet(s):\n"]
      for d in dl do
        let ia ← liftE (pyGet d "is_active")
        let active := if truthy ia then " (ACTIVE)" else ""
        let cost ← liftE (pyGet d "total_cost_per_day")
        let cost_str ←
          if truthy cost then do
            let currency ← liftE (pyGetD d "currency" (.str "INR"))
            let cq ← liftE (jNumE cost)
            pure (", " ++ pyStr currency ++ " " ++ fmtFixed 2 cq ++ "/day")
          else pure ""
        let nm ← liftE (pyGetD d "name" (.str "Unnamed"))
        let did ← liftE (pyIndex d "id")
        lines := lines ++ ["- " ++ pyStr nm ++ active ++ "\n  ID: " ++ pyStr did ++ cost_str]
      pure (String.intercalate "\n" lines)

def handle_diets_follow (arguments : JVal) (client : Client) : ToolM String := do
  let device_id ← liftE (pyGet arguments "device_id")
  let diet_id ← liftE (pyGet arguments "diet_id")
  if !truthy device_id || !truthy diet_id then
    pure "Error: device_id and diet_id are required"
  else do
    let result ← callB .follow_diet (client.follow_diet diet_id device_id)
    let nm ← liftE (pyGetD result "name" (.str "diet"))
    pure ("Now following: " ++ pyStr nm ++ "\nFollow-up reminders are now enabled.")

def handle_diets_unfollow (arguments : JVal) (client : Client) : ToolM String := do
  let device_id ← liftE (pyGet arguments "device_id")
  let diet_id ← liftE (pyGet arguments "diet_id")
  if !truthy device_id || !truthy diet_id then
    pure "Error: device_id and diet_id are required"
  else do
    let _ ← callB .unfollow_diet (client.unfollow_diet diet_id device_id)
    pure "Stopped following the diet."

/-!
## Tool registry and dispatcher (`server.py`)
-/

/-- `TOOL_ALIASES` from `server.py`. -/
def TOOL_ALIASES : List (String × String) :=
  [("get_countries", "rationsmart.countries.list"),
   ("get_breeds", "rationsmart.breeds.list"),
   ("resolve_location", "rationsmart.location.resolve"),
   ("resolve_country_id", "rationsmart.countries.resolve"),
   ("create_cow", "rationsmart.cows.create"),
   ("list_cows", "rationsmart.cows.list"),
   ("get_cow", "rationsmart.cows.get"),
   ("update_cow", "rationsmart.cows.update"),
   ("delete_cow", "rationsmart.cows.delete"),
   ("generate_diet", "rationsmart.diets.generate"),
   ("get_diet_schedule", "rationsmart.diets.schedule.get"),
   ("get_diet_history", "rationsmart.diets.history.list"),
   ("follow_diet", "rationsmart.diets.follow"),
   ("stop_following_diet", "rationsmart.diets.unfollow")]

/-- `TOOL_TITLES` from `server.py`. -/
def TOOL_TITLES : List (String × String) :=
  [("rationsmart.countries.list", "List Countries"),
   ("rationsmart.breeds.list", "List Breeds"),
   ("rationsmart.location.resolve", "Resolve Location"),
   ("rationsmart.countries.resolve", "Resolve Country ID"),
   ("rationsmart.cows.create", "Create Cow Profile"),
   ("rationsmart.cows.list", "List Cow Profiles"),
   ("rationsmart.cows.get", "Get Cow Details"),
   ("rationsmart.cows.update", "Update Cow Profile"),
   ("rationsmart.cows.delete", "Delete Cow Profile"),
   ("rationsmart.diets.generate", "Generate Diet"),
   ("rationsmart.diets.schedule.get", "Get Diet Schedule"),
   ("rationsmart.diets.history.list", "List Diet History"),
   ("rationsmart.diets.follow", "Follow Diet"),
   ("rationsmart.diets.unfollow", "Stop Following Diet")]

/-- The dispatch chain of `call_tool` (`if name == ... / elif ... / else`),
after alias resolution. -/
def call_tool_inner (name : String) (arguments : JVal) (client : Client) : ToolM String :=
  if name = "rationsmart.countries.list" then handle_countries_list client
  else if name = "rationsmart.breeds.list" then handle_breeds_list arguments client
  else if name = "rationsmart.location.resolve" then handle_location_resolve arguments client
  else if name = "rationsmart.countries.resolve" then handle_countries_resolve arguments client
  else if name = "rationsmart.cows.create" then handle_cows_create arguments client
  else if name = "rationsmart.cows.list" then handle_cows_list arguments client
  else if name = "rationsmart.cows.get" then handle_cows_get arguments client
  else if name = "rationsmart.cows.update" then handle_cows_update arguments client
  else if name = "rationsmart.cows.delete" then handle_cows_delete arguments client
  else if name = "rationsmart.diets.generate" then handle_diets_generate arguments client
  else if name = "rationsmart.diets.schedule.get" then handle_diets_schedule_get arguments client
  else if name = "rationsmart.diets.history.list" then handle_diets_history_list arguments client
  else if name = "rationsmart.diets.follow" then handle_diets_follow arguments client
  else if name = "rationsmart.diets.unfollow" then handle_diets_unfollow arguments client
  else pure ("Unknown tool: " ++ name)

/-- `call_tool` from `server.py`: resolve the alias, run the handler inside
`try/except`, and return the text of the single `TextContent` produced,
together with the trace of backend calls made.  A handler fault is converted
to an `"Error: <message>"` text. -/
def call_tool (name : String) (arguments : JVal) (client : Client) : String × List Call :=
  match call_tool_inner ((List.lookup name TOOL_ALIASES).getD name) arguments client [] with
  | (.ok t, tr) => (t, tr)
  | (.error e, tr) => ("Error: " ++ e, tr)

/-- A tool descriptor (`mcp.types.Tool` as used in `server.py`). -/
structure Tool where
  name : String
  description : String
  inputSchema : JVal

/-- `TOOLS` from `server.py`, transcribed with full descriptions and input
schemas (apostrophes written as `\x27`). -/
def TOOLS : List Tool :=
  [⟨"rationsmart.countries.list",
    "List supported countries for onboarding (id, name, currency).\nUse when the user needs to select or confirm their country.\nRead-only.\nReturns all active countries.",
    .obj [("type", .str "object"), ("properties", .obj []), ("required", .arr [])]⟩,
   ⟨"rationsmart.breeds.list",
    "List cattle breeds available for a country.\nUse after the user selects a country to show breed options.\nRead-only.\nRequires a valid country_id.",
    .obj [("type", .str "object"),
      ("properties", .obj [("country_id", .obj [("type", .str "string"),
        ("description", .str "The country UUID from get_countries")])]),
      ("required", .arr [.str "country_id"])]⟩,
   ⟨"rationsmart.location.resolve",
    "Resolve country and region from latitude/longitude via backend geocoding.\nUse when you only have GPS coordinates.\nRead-only (calls external geocoding).\nRequires latitude and longitude.",
    .obj [("type", .str "object"),
      ("properties", .obj [
        ("latitude", .obj [("type", .str "number"), ("description", .str "Latitude")]),
        ("longitude", .obj [("type", .str "number"), ("description", .str "Longitude")])]),
      ("required", .arr [.str "latitude", .str "longitude"])]⟩,
   ⟨"rationsmart.countries.resolve",
    "Resolve backend country_id from country code/name or latitude/longitude.\nUse before diet generation when you do not have a country_id.\nRead-only.\nFalls back to the first active country if no match is found.",
    .obj [("type", .str "object"),
      ("properties", .obj [
        ("country_code", .obj [("type", .str "string"),
          ("description", .str "ISO country code (2 or 3 letters)")]),
        ("country_name", .obj [("type", .str "string"), ("description", .str "Country name")]),
        ("latitude", .obj [("type", .str "number"), ("description", .str "Latitude")]),
        ("longitude", .obj [("type", .str "number"), ("description", .str "Longitude")])]),
      ("required", .arr [])]⟩,
   ⟨"rationsmart.cows.create",
    "Create a new cow profile for a farmer.\nUse when onboarding a cow for diet planning.\nWrites to the database.\nRequires device_id and name.",
    .obj [("type", .str "object"),
      ("properties", .obj [
        ("device_id", .obj [("type", .str "string"),
          ("description", .str "Unique device/user identifier for the farmer")]),
        ("name", .obj [("type", .str "string"),
          ("description", .str "Name of the cow (e.g., \x27Lakshmi\x27, \x27Ganga\x27)")]),
        ("breed", .obj [("type", .str "string"), ("description", .str "Breed of the cow")]),
        ("body_weight", .obj [("type", .str "number"),
          ("description", .str "Body weight in kg (typically 300-600 kg)"),
          ("default", .num 400)]),
        ("lactating", .obj [("type", .str "boolean"),
          ("description", .str "Is the cow currently lactating?"), ("default", .bool true)]),
        ("milk_production", .obj [("type", .str "number"),
          ("description", .str "Current daily milk production in liters"),
          ("default", .num 10)]),
        ("target_milk_yield", .obj [("type", .str "number"),
          ("description", .str "Target milk yield in liters/day (optional)")]),
        ("days_in_milk", .obj [("type", .str "integer"),
          ("description", .str "Days since calving"), ("default", .num 100)]),
        ("parity", .obj [("type", .str "integer"),
          ("description", .str "Number of times the cow has calved"), ("default", .num 2)]),
        ("days_of_pregnancy", .obj [("type", .str "integer"),
          ("description", .str "Days of pregnancy (0 if not pregnant)"), ("default", .num 0)])]),
      ("required", .arr [.str "device_id", .str "name"])]⟩,
   ⟨"rationsmart.cows.list",
    "List cow profiles for a farmer.\nUse when showing the farmer\x27s herd or selecting a cow.\nRead-only.\nRequires device_id.",
    .obj [("type", .str "object"),
      ("properties", .obj [
        ("device_id", .obj [("type", .str "string"),
          ("description", .str "Unique device/user identifier for the farmer")])]),
      ("required", .arr [.str "device_id"])]⟩,
   ⟨"rationsmart.cows.get",
    "Get details for a specific cow profile.\nUse when viewing or editing a cow.\nRead-only.\nRequires device_id and cow_id.",
    .obj [("type", .str "object"),
      ("properties", .obj [
        ("device_id", .obj [("type", .str "string"),
          ("description", .str "Unique device/user identifier")]),
        ("cow_id", .obj [("type", .str "string"),
          ("description", .str "The cow\x27s unique ID")])]),
      ("required", .arr [.str "device_id", .str "cow_id"])]⟩,
   ⟨"rationsmart.cows.update",
    "Update fields on a cow profile.\nUse when the farmer edits weight, milk, or status.\nWrites to the database.\nRequires device_id and cow_id; send only changed fields.",
    .obj [("type", .str "object"),
      ("properties", .obj [
        ("device_id", .obj [("type", .str "string"),
          ("description", .str "Unique device/user identifier")]),
        ("cow_id", .obj [("type", .str "string"), ("description", .str "The cow\x27s unique ID")]),
        ("name", .obj [("type", .str "string")]),
        ("body_weight", .obj [("type", .str "number")]),
        ("milk_production", .obj [("type", .str "number")]),
        ("target_milk_yield", .obj [("type", .str "number")]),
        ("lactating", .obj [("type", .str "boolean")]),
        ("days_in_milk", .obj [("type", .str "integer")]),
        ("parity", .obj [("type", .str "integer")]),
        ("days_of_pregnancy", .obj [("type", .str "integer")])]),
      ("required", .arr [.str "device_id", .str "cow_id"])]⟩,
   ⟨"rationsmart.cows.delete",
    "Delete or deactivate a cow profile.\nUse when the farmer removes a cow.\nWrites to the database; can be permanent.\nRequires device_id and cow_id.",
    .obj [("type", .str "object"),
      ("properties", .obj [
        ("device_id", .obj [("type", .str "string"),
          ("description", .str "Unique device/user identifier")]),
        ("cow_id", .obj [("type", .str "string"), ("description", .str "The cow\x27s unique ID")]),
        ("permanent", .obj [("type", .str "boolean"),
          ("description", .str "Permanently delete?"), ("default", .bool false)])]),
      ("required", .arr [.str "device_id", .str "cow_id"])]⟩,
   ⟨"rationsmart.diets.generate",
    "Generate a diet recommendation for a cow.\nUse after cow details and a country are known.\nWrites a diet record if save_diet is true.\nRequires device_id, cow_id, and a country (id/code or lat/long).",
    .obj [("type", .str "object"),
      ("properties", .obj [
        ("device_id", .obj [("type", .str "string"),
          ("description", .str "Unique device/user identifier")]),
        ("cow_id", .obj [("type", .str "string"), ("description", .str "The cow\x27s unique ID")]),
        ("country_id", .obj [("type", .str "string"),
          ("description", .str "Country ID for feed availability")]),
        ("country_code", .obj [("type", .str "string"),
          ("description", .str "ISO country code (2 or 3 letters)")]),
        ("country_name", .obj [("type", .str "string"), ("description", .str "Country name")]),
        ("latitude", .obj [("type", .str "number"), ("description", .str "Latitude")]),
        ("longitude", .obj [("type", .str "number"), ("description", .str "Longitude")]),
        ("save_diet", .obj [("type", .str "boolean"),
          ("description", .str "Save for later reference"), ("default", .bool true)])]),
      ("required", .arr [.str "device_id", .str "cow_id"])]⟩,
   ⟨"rationsmart.diets.schedule.get",
    "Get the active diet feeding schedule for a cow.\nUse when showing morning/evening instructions.\nRead-only.\nRequires device_id and cow_id.",
    .obj [("type", .str "object"),
      ("properties", .obj [
        ("device_id", .obj [("type", .str "string"),
          ("description", .str "Unique device/user identifier")]),
        ("cow_id", .obj [("type", .str "string"), ("description", .str "The cow\x27s unique ID")])]),
      ("required", .arr [.str "device_id", .str "cow_id"])]⟩,
   ⟨"rationsmart.diets.history.list",
    "List diet history for a farmer (optionally per cow).\nUse when showing past diets or analytics.\nRead-only.\nRequires device_id.",
    .obj [("type", .str "object"),
      ("properties", .obj [
        ("device_id", .obj [("type", .str "string"),
          ("description", .str "Unique device/user identifier")]),
        ("cow_id", .obj [("type", .str "string"),
          ("description", .str "Optional: filter to specific cow")])]),
      ("required", .arr [.str "device_id"])]⟩,
   ⟨"rationsmart.diets.follow",
    "Mark a diet as actively followed.\nUse when the farmer starts a plan.\nWrites to the database and enables reminders.\nRequires device_id and diet_id.",
    .obj [("type", .str "object"),
      ("properties", .obj [
        ("device_id", .obj [("type", .str "string"),
          ("description", .str "Unique device/user identifier")]),
        ("diet_id", .obj [("type", .str "string"), ("description", .str "The diet\x27s unique ID")])]),
      ("required", .arr [.str "device_id", .str "diet_id"])]⟩,
   ⟨"rationsmart.diets.unfollow",
    "Stop following a diet.\nUse when the farmer ends a plan.\nWrites to the database.\nRequires device_id and diet_id.",
    .obj [("type", .str "object"),
      ("properties", .obj [
        ("device_id", .obj [("type", .str "string"),
          ("description", .str "Unique device/user identifier")]),
        ("diet_id", .obj [("type", .str "string"), ("description", .str "The diet\x27s unique ID")])]),
      ("required", .arr [.str "device_id", .str "diet_id"])]⟩]

/-- The canonical tool names, in registry order. -/
def TOOL_NAMES : List String := TOOLS.map Tool.name

/-!
## HTTP / JSON-RPC adapter (`server.py`, `mcp_endpoint` and helpers)

The inbound request is modelled as an `accept` header string plus the JSON
parse outcome of the body (`none` = `json.JSONDecodeError`).  The endpoint is
factored as `mcpCore`, which produces the JSON-RPC payload and HTTP status
(every return of the source goes through `_jsonrpc_response(request, payload,
status)`), and `mcp_endpoint`, which applies the response framing.  An
uncaught Python exception inside the endpoint (a `.get` on a non-dict
`params`, or the `TypeError` from hashing an unhashable tool name in
`TOOL_ALIASES.get`) is an `Except.error`: it escapes the adapter and the
framework answers with a plain 500, outside the JSON-RPC state machine.
-/

/-- `SERVER_INFO` from `server.py`. -/
def SERVER_INFO : JVal :=
  .obj [("name", .str "RationSmart Tools"), ("version", .str "0.1.0")]

/-- `body.get(k)` for the already-checked JSON-object body. -/
def jget (fs : List (String × JVal)) (k : String) : JVal :=
  (List.lookup k fs).getD .null

/-- `_jsonrpc_error` from `server.py` (the optional `data` argument is never
passed in the source and is omitted). -/
def jsonrpc_error (request_id : JVal) (code : ℤ) (message : String) : JVal :=
  .obj [("jsonrpc", .str "2.0"), ("id", request_id),
    ("error", .obj [("code", .num (code : ℚ)), ("message", .str message)])]

/-- `_wants_sse` from `server.py`. -/
def wants_sse (accept : String) : Bool :=
  strIn "text/event-stream" (strLower accept)

/-- An HTTP response: status code, content type, body text. -/
structure HttpResponse where
  status : Nat
  media_type : String
  body : String
deriving DecidableEq

/-- `_jsonrpc_response` from `server.py`. -/
def jsonrpc_response (accept : String) (payload : JVal) (status_code : Nat) : HttpResponse :=
  if wants_sse accept then
    ⟨status_code, "text/event-stream", "data: " ++ dump payload ++ "\n\n"⟩
  else
    ⟨status_code, "application/json", dump payload⟩

/-- `call_tool(tool_name, arguments)` as invoked from `mcp_endpoint`, where
`params.get("name")` may be any JSON value.  A hashable non-string name
(null, bool, number) passes through `TOOL_ALIASES.get(name, name)`, misses
every dispatch branch and yields the `"Unknown tool: ..."` text; but an
unhashable name (array or object) makes `TOOL_ALIASES.get` itself raise
`TypeError` before the `try` block of `call_tool`, so the exception escapes
the endpoint unhandled — modelled as `.error`, with no backend calls
made. -/
def call_tool_jname (name : JVal) (arguments : JVal) (client : Client) :
    Except String (String × List Call) :=
  match name with
  | .str s => .ok (call_tool s arguments client)
  | .arr _ => .error "TypeError: unhashable type"
  | .obj _ => .error "TypeError: unhashable type"
  | v => .ok ("Unknown tool: " ++ pyStr v, [])

/-- Is the value the literal string `"2.0"` (the `body.get("jsonrpc") !=
"2.0"` test)? -/
def isJsonrpc2 : JVal → Bool
  | .str s => s == "2.0"
  | _ => false

/-- The `tools` payload of `tools/list` (also the flat `/tools` listing). -/
def toolsListPayload : JVal :=
  .arr (TOOLS.map (fun t =>
    .obj [("name", .str t.name),
      ("title", .str ((List.lookup t.name TOOL_TITLES).getD t.name)),
      ("description", .str t.description),
      ("inputSchema", t.inputSchema)]))

/-- The JSON-object branch of the `mcp_endpoint` state machine (the code
after the `isinstance` check), producing the JSON-RPC payload and HTTP status
code, plus the trace of backend calls made by dispatched tool handlers.
`.error` models an uncaught endpoint exception: a `.get` on a non-dict
`params`, or the `TypeError` raised by `TOOL_ALIASES.get` on an unhashable
tool name. -/
def mcpCoreObj (fs : List (String × JVal)) (client : Client) :
    Except String (JVal × Nat) × List Call :=
  let request_id := jget fs "id"
  if !isJsonrpc2 (jget fs "jsonrpc") then
    (.ok (jsonrpc_error request_id (-32600) "Invalid Request", 400), [])
  else
    let params := pyOr (jget fs "params") (.obj [])
    match jget fs "method" with
    | .str "initialize" =>
      (match pyGetD params "protocolVersion" (.str "2024-11-05") with
       | .error e => (.error e, [])
       | .ok pv =>
         (.ok (.obj [("jsonrpc", .str "2.0"), ("id", request_id),
           ("result", .obj [("protocolVersion", pv),
             ("capabilities", .obj [("tools",
               .obj [("list", .bool true), ("call", .bool true)])]),
             ("serverInfo", SERVER_INFO)])], 200), []))
    | .str "tools/list" =>
      (.ok (.obj [("jsonrpc", .str "2.0"), ("id", request_id),
        ("result", .obj [("tools", toolsListPayload)])], 200), [])
    | .str "tools/call" =>
      (match pyGet params "name" with
       | .error e => (.error e, [])
       | .ok tool_name =>
         if !truthy tool_name then
           (.ok (jsonrpc_error request_id (-32602) "Missing tool name", 400), [])
         else
           match pyGetD params "arguments" (.obj []) with
           | .error e => (.error e, [])
           | .ok arguments =>
             match call_tool_jname tool_name arguments client with
             | .error e => (.error e, [])
             | .ok (text, tr) =>
               let is_error := strStarts (strLower text) "error:"
               (.ok (.obj [("jsonrpc", .str "2.0"), ("id", request_id),
                 ("result", .obj [
                   ("content", .arr [.obj [("type", .str "text"), ("text", .str text)]]),
                   ("isError", .bool is_error)])], 200), tr))
    | _ =>
      (.ok (jsonrpc_error request_id (-32601) "Method not found", 404), [])

/-- The body dispatch of `mcp_endpoint`: parse failure, non-object body, or
the object state machine above. -/
def mcpCore (body : Option JVal) (client : Client) :
    Except String (JVal × Nat) × List Call :=
  match body with
  | none => (.ok (jsonrpc_error .null (-32700) "Parse error", 400), [])
  | some (.obj fs) => mcpCoreObj fs client
  | some _ => (.ok (jsonrpc_error .null (-32600) "Invalid Request", 400), [])

/-- `mcp_endpoint` from `server.py`: the state machine above with the
content-negotiated framing applied to its payload. -/
def mcp_endpoint (accept : String) (body : Option JVal) (client : Client) :
    Except String HttpResponse × List Call :=
  match mcpCore body client with
  | (.ok (payload, status), tr) => (.ok (jsonrpc_response accept payload status), tr)
  | (.error e, tr) => (.error e, tr)

/-- An oracle whose every method fails; used to instantiate theorems at
concrete inputs where no backend interaction is expected. -/
def noClient : Client where
  get_countries := .error "unreachable"
  get_breeds := fun _ => .error "unreachable"
  resolve_location := fun _ _ => .error "unreachable"
  create_cow := fun _ _ _ _ _ _ _ _ _ _ => .error "unreachable"
  list_cows := fun _ => .error "unreachable"
  get_cow := fun _ _ => .error "unreachable"
  update_cow := fun _ _ _ => .error "unreachable"
  delete_cow := fun _ _ _ => .error "unreachable"
  generate_diet_for_cow := fun _ _ _ => .error "unreachable"
  save_diet := fun _ _ _ _ _ _ _ => .error "unreachable"
  get_diet_history := fun _ _ => .error "unreachable"
  get_active_diet := fun _ _ => .error "unreachable"
  follow_diet := fun _ _ => .error "unreachable"
  unfollow_diet := fun _ _ => .error "unreachable"

/-- A one-country backend fixture for instantiating theorems. -/
def witCountries : List Country :=
  [⟨some "India", some "ind", some "IN1", some "INR", true⟩]

/-- An oracle whose country list is `witCountries` and whose other methods
fail. -/
def witClient : Client := { noClient with get_countries := .ok witCountries }

/-!
## General lemmas
-/

theorem toolM_bind_apply {α β : Type} (x : ToolM α) (f : α → ToolM β) (tr : List Call) :
    (x >>= f) tr =
      match x tr with
      | (.ok a, tr2) => f a tr2
      | (.error e, tr2) => (.error e, tr2) := rfl

theorem toolM_pure_apply {α : Type} (a : α) (tr : List Call) :
    (pure a : ToolM α) tr = (.ok a, tr) := rfl

theorem lookup_mem {α β : Type} [BEq α] [LawfulBEq α] {l : List (α × β)} {a : α} {b : β}
    (h : List.lookup a l = some b) : (a, b) ∈ l := by
  induction l with
  | nil => simp [List.lookup] at h
  | cons p t ih =>
    obtain ⟨k, v⟩ := p
    rw [List.lookup] at h
    cases hk : a == k with
    | true =>
      rw [hk] at h
      simp only [Option.some.injEq] at h
      subst h
      have : a = k := eq_of_beq hk
      subst this
      exact List.mem_cons_self _ _
    | false =>
      rw [hk] at h
      exact List.mem_cons_of_mem _ (ih h)

theorem extract_items_halves {cat : List (JVal × JVal)} :
    ∀ {items ms es : List JVal}, extract_items cat items = .ok (ms, es) → ms = es := by
  intro items
  induction items with
  | nil =>
    intro ms es h
    simp only [extract_items, Except.ok.injEq, Prod.mk.injEq] at h
    rw [← h.1, ← h.2]
  | cons f rest ih =>
    intro ms es h
    simp only [extract_items] at h
    cases h1 : extract_item cat f with
    | error e => rw [h1] at h; exact absurd h (by simp)
    | ok item =>
      rw [h1] at h
      cases h2 : extract_items cat rest with
      | error e => rw [h2] at h; exact absurd h (by simp)
      | ok p =>
        rw [h2] at h
        obtain ⟨ms2, es2⟩ := p
        simp only [Except.ok.injEq, Prod.mk.injEq] at h
        obtain ⟨hm, he⟩ := h
        rw [← hm, ← he, ih h2]

/-!
## Claim theorems
-/

/-- C10: for every raw optimization result and feed catalog from which the
diet summary derives successfully, the "morning" and "evening" sequences are
the same list — element-wise identical in name, english name, local name,
feed type and rounded quantity, not merely of equal length. -/
theorem diet_summary_halves_equal (result : JVal) (cat : List (JVal × JVal)) (v : JVal)
    (h : extract_diet_summary result cat = .ok v) :
    ∃ l : List JVal, v = .obj [("morning", .arr l), ("evening", .arr l)] := by
  simp only [extract_diet_summary] at h
  cases h1 : pyGetD result "least_cost_diet" (.arr []) with
  | error e => rw [h1] at h; exact absurd h (by simp)
  | ok dd =>
    rw [h1] at h
    dsimp only at h
    cases h2 : jIter dd with
    | error e => rw [h2] at h; exact absurd h (by simp)
    | ok items =>
      rw [h2] at h
      dsimp only at h
      cases h3 : extract_items cat items with
      | error e => rw [h3] at h; exact absurd h (by simp)
      | ok p =>
        rw [h3] at h
        obtain ⟨ms, es⟩ := p
        have heq : ms = es := extract_items_halves h3
        simp only [Except.ok.injEq] at h
        subst heq
        exact ⟨ms, h.symm⟩

/-- Witness for C10 at a concrete empty optimization result. -/
theorem diet_summary_halves_equal_witness :
    ∃ l : List JVal,
      JVal.obj [("morning", .arr []), ("evening", .arr [])]
        = .obj [("morning", .arr l), ("evening", .arr l)] :=
  diet_summary_halves_equal (.obj []) [] _ rfl

/-- C7: calling the cow-creation tool with `device_id` absent (or with `name`
absent) returns exactly "Error: device_id and name are required" and makes
zero backend calls: the required-argument check runs before any network
call. -/
theorem cows_create_requires_args (fs : List (String × JVal)) (client : Client)
    (h : List.lookup "device_id" fs = none ∨ List.lookup "name" fs = none) :
    call_tool "rationsmart.cows.create" (.obj fs) client
      = ("Error: device_id and name are required", []) := by
  have hres : call_tool "rationsmart.cows.create" (.obj fs) client
      = match handle_cows_create (.obj fs) client [] with
        | (.ok t, tr) => (t, tr)
        | (.error e, tr) => ("Error: " ++ e, tr) := rfl
  have hbody : handle_cows_create (.obj fs) client []
      = (.ok "Error: device_id and name are required", []) := by
    unfold handle_cows_create
    rcases h with h | h <;>
      simp [toolM_bind_apply, toolM_pure_apply, liftE, pyGet, h, truthy]
  rw [hres, hbody]

/-- Witness for C7: concrete argument bag with `name` but no `device_id`. -/
theorem cows_create_requires_args_witness :
    call_tool "rationsmart.cows.create" (.obj [("name", .str "Lakshmi")]) noClient
      = ("Error: device_id and name are required", []) :=
  cows_create_requires_args [("name", .str "Lakshmi")] noClient (Or.inl rfl)

/-- Every alias maps to a registered canonical name (kernel-checked over the
concrete tables). -/
theorem alias_targets_registered : ∀ p ∈ TOOL_ALIASES, p.2 ∈ TOOL_NAMES := by decide

/-- No alias target is itself an alias key. -/
theorem alias_targets_not_keys :
    ∀ p ∈ TOOL_ALIASES, List.lookup p.2 TOOL_ALIASES = none := by decide

/-- No canonical tool name is an alias key. -/
theorem canonical_not_alias_keys :
    ∀ n ∈ TOOL_NAMES, List.lookup n TOOL_ALIASES = none := by decide

/-- C8: every alias in the fixed alias table resolves to the canonical name
of exactly one registered tool descriptor (the target is registered and the
registered names are pairwise distinct), canonical names act as their own
aliases under resolution, and dispatch through an alias equals dispatch
through its canonical name for every argument bag and backend oracle, output
and backend-call trace included. -/
theorem tool_alias_resolution_sound :
    (∀ a c, List.lookup a TOOL_ALIASES = some c →
      c ∈ TOOL_NAMES ∧
      ∀ (args : JVal) (client : Client), call_tool a args client = call_tool c args client)
    ∧ TOOL_NAMES.Nodup
    ∧ (∀ n ∈ TOOL_NAMES, (List.lookup n TOOL_ALIASES).getD n = n) := by
  refine ⟨?_, by decide, ?_⟩
  · intro a c h
    have hmem : (a, c) ∈ TOOL_ALIASES := lookup_mem h
    refine ⟨alias_targets_registered _ hmem, ?_⟩
    intro args client
    unfold call_tool
    rw [h, alias_targets_not_keys _ hmem]
    rfl
  · intro n hn
    rw [canonical_not_alias_keys n hn]
    rfl

/-- Witness for C8: the `create_cow` alias dispatches identically to its
canonical name at a concrete argument bag. -/
theorem tool_alias_resolution_sound_witness :
    "rationsmart.cows.create" ∈ TOOL_NAMES ∧
    call_tool "create_cow" (.obj []) noClient
      = call_tool "rationsmart.cows.create" (.obj []) noClient :=
  ((tool_alias_resolution_sound.1 "create_cow" "rationsmart.cows.create" (by decide)).imp
    id (fun h => h (.obj []) noClient))

/-- C9: a tool name that is neither a canonical name nor an alias yields the
textual "Unknown tool" result with zero backend calls, and any fault raised
inside a handler is caught by the dispatcher and converted to a textual
"Error: <message>" result — a tool call never propagates an exception. -/
theorem unknown_tool_and_fault_wrapping :
    (∀ (name : String) (args : JVal) (client : Client),
      List.lookup name TOOL_ALIASES = none → name ∉ TOOL_NAMES →
      call_tool name args client = ("Unknown tool: " ++ name, []))
    ∧ (∀ (name : String) (args : JVal) (client : Client) (e : String) (tr : List Call),
      call_tool_inner ((List.lookup name TOOL_ALIASES).getD name) args client [] = (.error e, tr) →
      call_tool name args client = ("Error: " ++ e, tr)) := by
  constructor
  · intro name args client halias hname
    have h1 : name ≠ "rationsmart.countries.list" := fun hh => hname (by rw [hh]; decide)
    have h2 : name ≠ "rationsmart.breeds.list" := fun hh => hname (by rw [hh]; decide)
    have h3 : name ≠ "rationsmart.location.resolve" := fun hh => hname (by rw [hh]; decide)
    have h4 : name ≠ "rationsmart.countries.resolve" := fun hh => hname (by rw [hh]; decide)
    have h5 : name ≠ "rationsmart.cows.create" := fun hh => hname (by rw [hh]; decide)
    have h6 : name ≠ "rationsmart.cows.list" := fun hh => hname (by rw [hh]; decide)
    have h7 : name ≠ "rationsmart.cows.get" := fun hh => hname (by rw [hh]; decide)
    have h8 : name ≠ "rationsmart.cows.update" := fun hh => hname (by rw [hh]; decide)
    have h9 : name ≠ "rationsmart.cows.delete" := fun hh => hname (by rw [hh]; decide)
    have h10 : name ≠ "rationsmart.diets.generate" := fun hh => hname (by rw [hh]; decide)
    have h11 : name ≠ "rationsmart.diets.schedule.get" := fun hh => hname (by rw [hh]; decide)
    have h12 : name ≠ "rationsmart.diets.history.list" := fun hh => hname (by rw [hh]; decide)
    have h13 : name ≠ "rationsmart.diets.follow" := fun hh => hname (by rw [hh]; decide)
    have h14 : name ≠ "rationsmart.diets.unfollow" := fun hh => hname (by rw [hh]; decide)
    unfold call_tool
    rw [halias]
    unfold call_tool_inner
    simp only [Option.getD, if_neg h1, if_neg h2, if_neg h3, if_neg h4, if_neg h5,
      if_neg h6, if_neg h7, if_neg h8, if_neg h9, if_neg h10, if_neg h11, if_neg h12,
      if_neg h13, if_neg h14]
  · intro name args client e tr h
    unfold call_tool
    rw [h]

/-- Witness for C9: the unknown name "bogus" at a concrete argument bag. -/
theorem unknown_tool_and_fault_wrapping_witness :
    call_tool "bogus" (.obj []) noClient = ("Unknown tool: bogus", []) :=
  unknown_tool_and_fault_wrapping.1 "bogus" (.obj []) noClient (by decide) (by decide)

/-- C4: a body that fails to parse yields −32700 "Parse error" with HTTP 400
and id null; a non-object body, or an object whose `jsonrpc` field is not the
literal `"2.0"`, yields −32600 "Invalid Request" with HTTP 400, echoing the
extractable request id (null otherwise); in all cases the result is
independent of the backend and the backend-call trace is empty — the request
is rejected before any tool dispatch. -/
theorem mcp_rejects_malformed :
    (∀ client : Client,
      mcpCore none client = (.ok (jsonrpc_error .null (-32700) "Parse error", 400), []))
    ∧ (∀ (client : Client) (v : JVal), (∀ fs, v ≠ .obj fs) →
      mcpCore (some v) client
        = (.ok (jsonrpc_error .null (-32600) "Invalid Request", 400), []))
    ∧ (∀ (client : Client) (fs : List (String × JVal)), jget fs "jsonrpc" ≠ .str "2.0" →
      mcpCore (some (.obj fs)) client
        = (.ok (jsonrpc_error (jget fs "id") (-32600) "Invalid Request", 400), [])) := by
  refine ⟨fun client => rfl, ?_, ?_⟩
  · intro client v hv
    cases v with
    | obj fs => exact absurd rfl (hv fs)
    | null => rfl
    | bool b => rfl
    | num q => rfl
    | str s => rfl
    | arr xs => rfl
  · intro client fs hj
    have hb : isJsonrpc2 (jget fs "jsonrpc") = false := by
      cases hv : jget fs "jsonrpc" with
      | null => rfl
      | bool b => rfl
      | num q => rfl
      | arr a => rfl
      | obj o => rfl
      | str s =>
        have hs : s ≠ "2.0" := fun hs => hj (by rw [hv, hs])
        simp [isJsonrpc2, hs]
    show mcpCoreObj fs client = _
    unfold mcpCoreObj
    rw [hb]
    simp

/-- Witness for C4: a non-object body, and a `jsonrpc: "1.0"` body with a
numeric id that is echoed. -/
theorem mcp_rejects_malformed_witness :
    mcpCore (some (.str "x")) noClient
      = (.ok (jsonrpc_error .null (-32600) "Invalid Request", 400), [])
    ∧ mcpCore (some (.obj [("jsonrpc", .str "1.0"), ("id", .num 7)])) noClient
      = (.ok (jsonrpc_error (.num 7) (-32600) "Invalid Request", 400), []) :=
  ⟨mcp_rejects_malformed.2.1 noClient (.str "x") (fun _ h => JVal.noConfusion h),
   mcp_rejects_malformed.2.2 noClient [("jsonrpc", .str "1.0"), ("id", .num 7)]
     (fun h => by injection h with h2; exact absurd h2 (by decide))⟩

/-- C6: for any request body on which the adapter produces a payload, two
runs differing only in whether the Accept header indicates event-stream give
the same HTTP status and the same JSON payload; the event-stream run frames
it as a single `data: <json>` event with the event-stream content type, the
other as a plain JSON body. -/
theorem mcp_framing_content_invariant (a1 a2 : String) (body : Option JVal)
    (client : Client) (p : JVal) (s : Nat) (tr : List Call)
    (h1 : wants_sse a1 = true) (h2 : wants_sse a2 = false)
    (hc : mcpCore body client = (.ok (p, s), tr)) :
    mcp_endpoint a1 body client
      = (.ok ⟨s, "text/event-stream", "data: " ++ dump p ++ "\n\n"⟩, tr)
    ∧ mcp_endpoint a2 body client = (.ok ⟨s, "application/json", dump p⟩, tr) := by
  unfold mcp_endpoint
  rw [hc]
  constructor <;> simp [jsonrpc_response, h1, h2]

/-- Witness for C6 on a parse-error request with concrete Accept headers. -/
theorem mcp_framing_content_invariant_witness :
    mcp_endpoint "text/event-stream" none noClient
      = (.ok ⟨400, "text/event-stream",
          "data: " ++ dump (jsonrpc_error .null (-32700) "Parse error") ++ "\n\n"⟩, [])
    ∧ mcp_endpoint "application/json" none noClient
      = (.ok ⟨400, "application/json", dump (jsonrpc_error .null (-32700) "Parse error")⟩, []) :=
  mcp_framing_content_invariant "text/event-stream" "application/json" none noClient _ _ _
    (by decide) (by decide) rfl

/-- C5 counterexample: `params.name` present but equal to the empty string is
not absent, yet the endpoint answers −32602 "Missing tool name" instead of
dispatching — refuting the claim's "otherwise dispatches" clause as stated. -/
theorem mcp_tools_call_falsy_name_cex :
    List.lookup "name" [("name", JVal.str "")] = some (.str "")
    ∧ mcpCore (some (.obj [("jsonrpc", .str "2.0"), ("method", .str "tools/call"),
        ("params", .obj [("name", .str "")])])) noClient
      = (.ok (jsonrpc_error .null (-32602) "Missing tool name", 400), []) :=
  ⟨rfl, rfl⟩

/-- C5 (amended): for a `tools/call` request with params object `ps`, a falsy
`params.name` (absent, null, empty, false or zero) yields −32602 "Missing
tool name" with HTTP 400 and zero dispatched backend calls; a truthy
hashable name (a string or scalar) dispatches, wraps the single dispatch
text as one content item, and the envelope's `isError` is true if and only
if that text begins with the case-insensitive prefix "error:"; a truthy
unhashable name (an array or object) raises in `TOOL_ALIASES.get` before the
dispatcher's `try`, no backend call is made, and the exception escapes the
adapter unhandled — no JSON-RPC envelope is produced. -/
theorem mcp_tools_call_spec (client : Client) (fs ps : List (String × JVal))
    (hj : jget fs "jsonrpc" = .str "2.0")
    (hm : jget fs "method" = .str "tools/call")
    (hp : jget fs "params" = .obj ps) :
    (truthy (jget ps "name") = false →
      mcpCore (some (.obj fs)) client
        = (.ok (jsonrpc_error (jget fs "id") (-32602) "Missing tool name", 400), []))
    ∧ (∀ (t : String) (tr : List Call), truthy (jget ps "name") = true →
      call_tool_jname (jget ps "name")
          ((List.lookup "arguments" ps).getD (.obj [])) client = .ok (t, tr) →
      mcpCore (some (.obj fs)) client
        = (.ok (.obj [("jsonrpc", .str "2.0"), ("id", jget fs "id"),
            ("result", .obj [
              ("content", .arr [.obj [("type", .str "text"), ("text", .str t)]]),
              ("isError", .bool (strStarts (strLower t) "error:"))])],
           200), tr))
    ∧ (∀ e : String, truthy (jget ps "name") = true →
      call_tool_jname (jget ps "name")
          ((List.lookup "arguments" ps).getD (.obj [])) client = .error e →
      mcpCore (some (.obj fs)) client = (.error e, [])) := by
  have hps : pyOr (JVal.obj ps) (.obj []) = .obj ps := by
    cases ps with
    | nil => rfl
    | cons a l => rfl
  have hred : ∀ _h : truthy (jget ps "name") = true,
      mcpCoreObj fs client
        = match call_tool_jname (jget ps "name")
            ((List.lookup "arguments" ps).getD (.obj [])) client with
          | .error e => (.error e, [])
          | .ok (text, tr) =>
            (.ok (.obj [("jsonrpc", .str "2.0"), ("id", jget fs "id"),
              ("result", .obj [
                ("content", .arr [.obj [("type", .str "text"), ("text", .str text)]]),
                ("isError", .bool (strStarts (strLower text) "error:"))])],
             200), tr) := by
    intro ht
    unfold mcpCoreObj
    rw [hj]
    rw [show isJsonrpc2 (JVal.str "2.0") = true from rfl]
    simp only [Bool.not_true, Bool.false_eq_true, if_false]
    rw [hm, hp, hps]
    simp only [pyGet, pyGetD]
    rw [show (List.lookup "name" ps).getD JVal.null = jget ps "name" from rfl, ht]
    simp
  refine ⟨?_, ?_, ?_⟩
  · intro ht
    show mcpCoreObj fs client = _
    unfold mcpCoreObj
    rw [hj]
    rw [show isJsonrpc2 (JVal.str "2.0") = true from rfl]
    simp only [Bool.not_true, Bool.false_eq_true, if_false]
    rw [hm, hp, hps]
    simp only [pyGet, pyGetD]
    rw [show (List.lookup "name" ps).getD JVal.null = jget ps "name" from rfl, ht]
    simp
  · intro t tr ht hcall
    show mcpCoreObj fs client = _
    rw [hred ht, hcall]
  · intro e ht hcall
    show mcpCoreObj fs client = _
    rw [hred ht, hcall]

/-- Witness for C5: a concrete unknown (but truthy, hashable) tool name, and
a concrete unhashable (array) tool name that escapes the adapter. -/
theorem mcp_tools_call_spec_witness :
    mcpCore (some (.obj [("jsonrpc", .str "2.0"), ("method", .str "tools/call"),
        ("params", .obj [("name", .str "nosuch")])])) noClient
      = (.ok (.obj [("jsonrpc", .str "2.0"), ("id", .null),
          ("result", .obj [
            ("content", .arr [.obj [("type", .str "text"),
              ("text", .str "Unknown tool: nosuch")]]),
            ("isError", .bool false)])], 200), [])
    ∧ mcpCore (some (.obj [("jsonrpc", .str "2.0"), ("method", .str "tools/call"),
        ("params", .obj [("name", .arr [.num 1])])])) noClient
      = (.error "TypeError: unhashable type", []) :=
  ⟨(mcp_tools_call_spec noClient
      [("jsonrpc", .str "2.0"), ("method", .str "tools/call"),
        ("params", .obj [("name", .str "nosuch")])]
      [("name", .str "nosuch")] rfl rfl rfl).2.1 "Unknown tool: nosuch" [] rfl rfl,
   (mcp_tools_call_spec noClient
      [("jsonrpc", .str "2.0"), ("method", .str "tools/call"),
        ("params", .obj [("name", .arr [.num 1])])]
      [("name", .arr [.num 1])] rfl rfl rfl).2.2 "TypeError: unhashable type" rfl rfl⟩

theorem firstSome_assoc {α : Type} (a b c : Option α) :
    firstSome (firstSome a b) c = firstSome a (firstSome b c) := by
  cases a <;> rfl

theorem step_guard {α : Type} [DecidableEq α] (o : Option α) (p : Prop) [Decidable p] (x : Option α) :
    (if o = none ∧ p then x else o) = firstSome o (if p then x else none) := by
  cases o with
  | some a => simp [firstSome]
  | none => by_cases hp : p <;> simp [hp, firstSome]

theorem step_last {α : Type} [DecidableEq α] (o x : Option α) :
    (if o = none then x else o) = firstSome o x := by
  cases o <;> simp [firstSome]

/-- The four guarded scans of `_resolve_country_id` are exactly the
first-match precedence chain. -/
theorem resolveMatch_chain (countries : List Country) (nn mc : String) :
    resolveMatch countries nn mc
      = firstSome
          (if nn ≠ "" then countries.find? (fun c => normalize_name c.name == nn) else none)
          (firstSome
            (if mc ≠ "" then
              countries.find? (fun c => normalize_code c.country_code == mc) else none)
            (firstSome
              (if nn ≠ "" then
                countries.find? (fun c =>
                  strIn nn (normalize_name c.name) || strIn (normalize_name c.name) nn)
                else none)
              (countries.find? (fun c => c.is_active)))) := by
  unfold resolveMatch
  dsimp only
  rw [step_guard, step_guard, step_last, firstSome_assoc, firstSome_assoc]

/-- C1: the country resolver fetches the country list, normalizes the name
(trim, collapse internal whitespace, lowercase) and the code (trim,
lowercase), remaps the code through the override table ("in" becomes "ind";
absent codes pass through unchanged), and returns the id of the first record
matching in strict precedence exact-name, exact-overridden-code, substring
containment in either direction, first-active; no id when nothing matches. -/
theorem resolve_country_follows_precedence :
    (∀ (client : Client) (countries : List Country),
      client.get_countries = .ok countries →
      ∀ (code name : Option String) (tr : List Call),
        resolve_country_id client (jOfOptStr code) (jOfOptStr name) tr
          = (.ok (specResolveCountryId countries code name), tr ++ [Call.get_countries]))
    ∧ (List.lookup "in" COUNTRY_CODE_OVERRIDES).getD "in" = "ind"
    ∧ (∀ code : String, List.lookup code COUNTRY_CODE_OVERRIDES = none →
        (List.lookup code COUNTRY_CODE_OVERRIDES).getD code = code) := by
  refine ⟨?_, by decide, fun code h => by rw [h]; rfl⟩
  intro client countries hc code name tr
  have hname : normalize_name_v (jOfOptStr name) = .ok (normalize_name name) := by
    cases name with
    | none => rfl
    | some s =>
      by_cases hs : s = ""
      · subst hs; rfl
      · simp [normalize_name_v, jOfOptStr, truthy, hs, normalize_name]
  have hcode : normalize_code_v (jOfOptStr code) = .ok (normalize_code code) := by
    cases code with
    | none => rfl
    | some s =>
      by_cases hs : s = ""
      · subst hs; rfl
      · simp [normalize_code_v, jOfOptStr, truthy, hs, normalize_code]
  unfold resolve_country_id
  simp only [toolM_bind_apply, callB, liftE, hc, hname, hcode, toolM_pure_apply]
  unfold specResolveCountryId
  rw [resolveMatch_chain]

/-- Witness for C1: a concrete backend with one active country, the code
"IN", no name; and the pass-through of the unlisted code "us". -/
theorem resolve_country_follows_precedence_witness :
    resolve_country_id witClient (.str "IN") .null []
      = (.ok (specResolveCountryId witCountries (some "IN") none), [Call.get_countries])
    ∧ (List.lookup "us" COUNTRY_CODE_OVERRIDES).getD "us" = "us" :=
  ⟨resolve_country_follows_precedence.1 witClient witCountries rfl (some "IN") none [],
   resolve_country_follows_precedence.2.2 "us" rfl⟩

/-- The dict lookup performed by `_extract_diet_summary` on an embedded
string-keyed catalog agrees with the structured `catLookup`. -/
theorem lookupJ_catToJ (catalog : List (String × CatEntry)) (fid : JVal) :
    lookupJ fid (catToJ catalog) = (catLookup catalog fid).map (fun e => e.toJ) := by
  induction catalog with
  | nil => cases fid <;> rfl
  | cons kv rest ih =>
    obtain ⟨k, e⟩ := kv
    cases fid with
    | str s =>
      by_cases hk : k = s
      · subst hk
        simp [catToJ, lookupJ, catLookup, List.find?, jEq]
      · have hk2 : (k == s) = false := by simp [hk]
        simp only [catToJ, List.map, lookupJ, catLookup, List.find?, jEq, hk2] at ih ⊢
        exact ih
    | null => simp [catToJ, lookupJ, catLookup, List.find?, jEq]
    | bool b => simp [catToJ, lookupJ, catLookup, List.find?, jEq]
    | num q => simp [catToJ, lookupJ, catLookup, List.find?, jEq]
    | arr a => simp [catToJ, lookupJ, catLookup, List.find?, jEq]
    | obj o => simp [catToJ, lookupJ, catLookup, List.find?, jEq]

theorem extract_item_rest_toJ (fid : JVal) (fname : Option String) (qty : ℚ)
    (en ln ft : JVal) :
    extract_item_rest (LineItem.toJ ⟨fid, fname, qty⟩) en ln ft
      = .ok (.obj [("name", en), ("english_name", en), ("local_name", ln),
          ("quantity_kg", .num (round1 (qty / 2))), ("fd_type", ft)]) := by
  cases fname <;> rfl

theorem catEntry_fields (e : CatEntry) :
    pyGet e.toJ "english_name"
        = .ok (match e.english_name with | some n => .str n | none => .null)
    ∧ pyGet e.toJ "local_name" = .ok e.local_name
    ∧ pyGet e.toJ "fd_type" = .ok e.fd_type := by
  obtain ⟨en, ln, ft⟩ := e
  cases en <;> exact ⟨rfl, rfl, rfl⟩

/-- The per-item transform on an embedded well-formed line item produces
exactly the specified entry. -/
theorem extract_item_toJ (catalog : List (String × CatEntry)) (it : LineItem) :
    extract_item (catToJ catalog) it.toJ = .ok (specEntry catalog it) := by
  obtain ⟨fid, fname, qty⟩ := it
  have h1 : pyGet (LineItem.toJ ⟨fid, fname, qty⟩) "feed_id" = .ok fid := by
    cases fname <;> rfl
  have h2 : pyGetD (LineItem.toJ ⟨fid, fname, qty⟩) "feed_name" (.str "Unknown")
      = .ok (.str (fname.getD "Unknown")) := by
    cases fname <;> rfl
  unfold extract_item
  rw [h1]
  dsimp only
  rw [h2]
  dsimp only
  rw [lookupJ_catToJ]
  by_cases ht : truthy fid = true
  · simp only [ht, if_true]
    cases hcl : catLookup catalog fid with
    | none =>
      simp only [Option.map_none']
      rw [extract_item_rest_toJ]
      simp [specEntry, specName, ht, hcl]
    | some e =>
      simp only [Option.map_some']
      rw [(catEntry_fields e).1, (catEntry_fields e).2.1, (catEntry_fields e).2.2]
      dsimp only
      rw [extract_item_rest_toJ]
      cases hen : e.english_name with
      | none =>
        simp [specEntry, specName, ht, hcl, hen, pyOr,
          (show truthy JVal.null = false from rfl)]
      | some n =>
        by_cases hn : n = ""
        · subst hn
          simp [specEntry, specName, ht, hcl, hen, pyOr,
            (show truthy (JVal.str "") = false from rfl)]
        · have hts : truthy (JVal.str n) = true := by simp [truthy, hn]
          simp [specEntry, specName, ht, hcl, hen, pyOr, hts, hn]
  · have ht2 : truthy fid = false := by
      cases hb : truthy fid
      · rfl
      · exact absurd hb ht
    simp only [ht2, Bool.false_eq_true, if_false]
    rw [extract_item_rest_toJ]
    simp [specEntry, specName, ht2]

theorem extract_items_toJ (catalog : List (String × CatEntry)) (items : List LineItem) :
    extract_items (catToJ catalog) (items.map LineItem.toJ)
      = .ok (items.map (specEntry catalog), items.map (specEntry catalog)) := by
  induction items with
  | nil => rfl
  | cons it rest ih => simp [extract_items, extract_item_toJ, ih]

theorem extract_item_congr (cat1 cat2 : List (JVal × JVal))
    (h : ∀ k, lookupJ k cat1 = lookupJ k cat2) (feed : JVal) :
    extract_item cat1 feed = extract_item cat2 feed := by
  unfold extract_item
  simp only [h]

theorem extract_items_congr (cat1 cat2 : List (JVal × JVal))
    (h : ∀ k, lookupJ k cat1 = lookupJ k cat2) :
    ∀ items, extract_items cat1 items = extract_items cat2 items := by
  intro items
  induction items with
  | nil => rfl
  | cons f rest ih =>
    simp only [extract_items, extract_item_congr cat1 cat2 h f, ih]

/-- C2 counterexample: the empty-string feed id is present in the catalog
under the non-empty name "Grass", yet the derived entry keeps the embedded
name "Hay": `if feed_id and feed_id in feed_names_lookup` treats the falsy id
as absent, refuting the claim's "name is taken from the catalog when the
line item's feed id is present there" as stated. -/
theorem diet_summary_name_enrichment_cex :
    (lookupJ (.str "") [((JVal.str ""),
        JVal.obj [("english_name", .str "Grass"), ("local_name", .null),
          ("fd_type", .null)])]).isSome = true
    ∧ extract_diet_summary
        (.obj [("least_cost_diet", .arr [.obj [("feed_id", .str ""),
          ("feed_name", .str "Hay"), ("quantity_kg_per_day", .num 2)]])])
        [((JVal.str ""),
          JVal.obj [("english_name", .str "Grass"), ("local_name", .null),
            ("fd_type", .null)])]
      = .ok (.obj [
          ("morning", .arr [.obj [("name", .str "Hay"), ("english_name", .str "Hay"),
            ("local_name", .null), ("quantity_kg", .num 1), ("fd_type", .null)]]),
          ("evening", .arr [.obj [("name", .str "Hay"), ("english_name", .str "Hay"),
            ("local_name", .null), ("quantity_kg", .num 1), ("fd_type", .null)]])])
    ∧ "Hay" ≠ "Grass" :=
  ⟨rfl, rfl, by decide⟩

/-- C2 (amended): on every well-formed optimization result and string-keyed
feed catalog, the derived summary has equal "morning" and "evening"
sequences with exactly one entry per line item in input order, quantity the
line item's quantity halved and rounded to one decimal; the name is the
catalog name when the feed id is truthy (non-empty), present in the catalog,
and the catalog name is non-empty, else the embedded line-item name, else
"Unknown".  The transform is pure, and depends on the catalog only through
lookup: catalogs with the same lookup function (any ordering of distinct
keys) give identical output. -/
theorem diet_summary_derivation_spec :
    (∀ (items : List LineItem) (catalog : List (String × CatEntry)),
      extract_diet_summary
          (.obj [("least_cost_diet", .arr (items.map LineItem.toJ))]) (catToJ catalog)
        = .ok (.obj [("morning", .arr (items.map (specEntry catalog))),
            ("evening", .arr (items.map (specEntry catalog)))]))
    ∧ (∀ (r : JVal) (cat1 cat2 : List (JVal × JVal)),
      (∀ k, lookupJ k cat1 = lookupJ k cat2) →
      extract_diet_summary r cat1 = extract_diet_summary r cat2) := by
  constructor
  · intro items catalog
    unfold extract_diet_summary
    rw [show pyGetD (JVal.obj [("least_cost_diet", .arr (items.map LineItem.toJ))])
        "least_cost_diet" (.arr []) = .ok (.arr (items.map LineItem.toJ)) from rfl]
    dsimp only
    rw [show jIter (JVal.arr (items.map LineItem.toJ)) = .ok (items.map LineItem.toJ) from rfl]
    dsimp only
    rw [extract_items_toJ]
  · intro r cat1 cat2 h
    unfold extract_diet_summary
    simp only [extract_items_congr cat1 cat2 h]

/-- Witness for C2: two concrete catalogs with the same lookups (the second
carries a shadowed duplicate key) give identical summaries. -/
theorem diet_summary_derivation_spec_witness :
    extract_diet_summary
        (.obj [("least_cost_diet", .arr [.obj [("feed_id", .str "a"),
          ("feed_name", .str "Hay"), ("quantity_kg_per_day", .num 1)]])])
        [((JVal.str "a"), JVal.obj [("english_name", .str "Grass")])]
      = extract_diet_summary
        (.obj [("least_cost_diet", .arr [.obj [("feed_id", .str "a"),
          ("feed_name", .str "Hay"), ("quantity_kg_per_day", .num 1)]])])
        [((JVal.str "a"), JVal.obj [("english_name", .str "Grass")]),
         ((JVal.str "a"), JVal.obj [("dup", .null)])] :=
  diet_summary_derivation_spec.2 _ _ _
    (fun k => by cases hk : jEq (JVal.str "a") k <;> simp [lookupJ, List.find?, hk])

/-- C3 counterexample: a line item of 0.05 kg/day halves to 0.025, rounds to
0.0, and the rendering omits the feed line entirely — no grams are shown,
refuting "given quantity 0.05 kg, the rendering shows grams (50)" for a line
item of the diet result. -/
theorem diet_schedule_grams_cex :
    (extract_diet_summary
        (.obj [("least_cost_diet",
          .arr [.obj [("feed_name", .str "Hay"),
            ("quantity_kg_per_day", .num (1/20))]])]) []
      >>= format_diet_schedule)
      = .ok "Morning Feeding:\n\nEvening Feeding:"
    ∧ strIn "grams" "Morning Feeding:\n\nEvening Feeding:" = false :=
  ⟨rfl, by decide⟩

/-- C3 (amended): a 10.0 kg/day line item renders as 5.0 kg in both the
morning and the evening sections; a summary entry carrying quantity 0.05 kg
(strictly between 0 and 1) renders as grams (50) rather than a fractional kg
value; a 0.05 kg/day line item halves and rounds to 0.0 and is omitted from
the rendering. -/
theorem diet_schedule_rendering_spec :
    (extract_diet_summary
        (.obj [("least_cost_diet",
          .arr [.obj [("feed_name", .str "Hay"), ("quantity_kg_per_day", .num 10)]])]) []
      >>= format_diet_schedule)
      = .ok "Morning Feeding:\n  - Hay: 5.0 kg\n\nEvening Feeding:\n  - Hay: 5.0 kg"
    ∧ format_diet_schedule
        (.obj [("morning", .arr [.obj [("english_name", .str "Hay"),
          ("quantity_kg", .num (1/20))]])])
      = .ok "Morning Feeding:\n  - Hay: 50 grams"
    ∧ (extract_diet_summary
        (.obj [("least_cost_diet",
          .arr [.obj [("feed_name", .str "Hay"),
            ("quantity_kg_per_day", .num (1/20))]])]) []
      >>= format_diet_schedule)
      = .ok "Morning Feeding:\n\nEvening Feeding:" :=
  ⟨rfl, rfl, rfl⟩
